import Mathlib

/-!
Verification of the syscall dispatch layer of rCore
(`src/kernel/src/syscall/mod.rs`), as a shallow embedding in Lean 4.

The embedding covers: the error taxonomy `SysError` with its `repr(isize)`
discriminants, the `Display` implementation (modelled with the semantics the
Rust source actually has, see the doc comment on `SysError.displayString`),
the `Result`-to-integer collapse at the end of `syscall`, and the dispatcher
`syscall(id, args, tf)` itself.  The individual operation handlers
(`sys_read`, `sys_write`, ...) live in sibling modules that are external
collaborators of this layer; they are abstracted as an opaque record of
functions (`Handlers`), so every theorem about dispatch routing holds for
arbitrary handler behaviour.
-/

namespace RCore

/-- Two's-complement reinterpretation of a 64-bit unsigned word as `i64`
(the Rust cast `as i64`). -/
def toI64 (n : Nat) : Int :=
  if n % 2 ^ 64 < 2 ^ 63 then (n % 2 ^ 64 : Int) else (n % 2 ^ 64 : Int) - 2 ^ 64

/-- The Rust cast `usize as isize` on the 64-bit target. -/
def toIsize (n : Nat) : Int := toI64 n

/-- Two's-complement reinterpretation of the low 32 bits of a word as `i32`
(the Rust cast `as i32`). -/
def toI32 (n : Nat) : Int :=
  if n % 2 ^ 32 < 2 ^ 31 then (n % 2 ^ 32 : Int) else (n % 2 ^ 32 : Int) - 2 ^ 32

/-- The error taxonomy: `enum SysError` from `src/kernel/src/syscall/mod.rs`
lines 148-189.  Forty variants, `EUNDEF` through `ENOTEMPTY`. -/
inductive SysError
  | EUNDEF
  | EPERM
  | ENOENT
  | ESRCH
  | EINTR
  | EIO
  | ENXIO
  | E2BIG
  | ENOEXEC
  | EBADF
  | ECHILD
  | EAGAIN
  | ENOMEM
  | EACCES
  | EFAULT
  | ENOTBLK
  | EBUSY
  | EEXIST
  | EXDEV
  | ENODEV
  | ENOTDIR
  | EISDIR
  | EINVAL
  | ENFILE
  | EMFILE
  | ENOTTY
  | ETXTBSY
  | EFBIG
  | ENOSPC
  | ESPIPE
  | EROFS
  | EMLINK
  | EPIPE
  | EDOM
  | ERANGE
  | EDEADLK
  | ENAMETOOLONG
  | ENOLCK
  | ENOSYS
  | ENOTEMPTY
  deriving DecidableEq, Fintype, Repr

/-- The `repr(isize)` discriminant of each `SysError` variant, i.e. the value
of the Rust cast `err as isize`.  These are the explicit `= 0`, `= 1`, ...,
`= 39` assignments on lines 149-188 of the source. -/
def SysError.code : SysError → Int
  | SysError.EUNDEF => 0
  | SysError.EPERM => 1
  | SysError.ENOENT => 2
  | SysError.ESRCH => 3
  | SysError.EINTR => 4
  | SysError.EIO => 5
  | SysError.ENXIO => 6
  | SysError.E2BIG => 7
  | SysError.ENOEXEC => 8
  | SysError.EBADF => 9
  | SysError.ECHILD => 10
  | SysError.EAGAIN => 11
  | SysError.ENOMEM => 12
  | SysError.EACCES => 13
  | SysError.EFAULT => 14
  | SysError.ENOTBLK => 15
  | SysError.EBUSY => 16
  | SysError.EEXIST => 17
  | SysError.EXDEV => 18
  | SysError.ENODEV => 19
  | SysError.ENOTDIR => 20
  | SysError.EISDIR => 21
  | SysError.EINVAL => 22
  | SysError.ENFILE => 23
  | SysError.EMFILE => 24
  | SysError.ENOTTY => 25
  | SysError.ETXTBSY => 26
  | SysError.EFBIG => 27
  | SysError.ENOSPC => 28
  | SysError.ESPIPE => 29
  | SysError.EROFS => 30
  | SysError.EMLINK => 31
  | SysError.EPIPE => 32
  | SysError.EDOM => 33
  | SysError.ERANGE => 34
  | SysError.EDEADLK => 35
  | SysError.ENAMETOOLONG => 36
  | SysError.ENOLCK => 37
  | SysError.ENOSYS => 38
  | SysError.ENOTEMPTY => 39

/-- The string produced by `impl fmt::Display for SysError` (source lines
192-239), with the semantics the Rust source actually has.  The source match
reads `match self { EPERM => "Operation not permitted", ENOENT => ..., ... }`,
but no `use SysError::*` (or `use self::SysError::*`) is in scope in the
module, so in Rust each bare name `EPERM`, `ENOENT`, ... is an identifier
pattern that BINDS a fresh variable rather than a path pattern referring to
the enum variant.  The first arm is therefore irrefutable and matches every
value: every `SysError`, whatever its variant, is formatted as
"Operation not permitted".  (The `allow(non_snake_case)` attribute on the
impl silences exactly the lint these upper-case bindings raise; rustc also
warns that all later arms, including the `_ => "Unknown error"` arm, are
unreachable.) -/
def SysError.displayString : SysError → String
  | _e => "Operation not permitted"

/-- The phrase table the `Display` match arms pair with each variant name
textually (source lines 196-235): the per-variant reading the impl was
evidently intended to have, with the defensive `_ => "Unknown error"` arm
covering `EUNDEF`, the one variant with no arm of its own.  This definition
is used only to state how far the actual behaviour
(` SysError.displayString`) diverges from that table. -/
def SysError.intendedPhrase : SysError → String
  | SysError.EPERM => "Operation not permitted"
  | SysError.ENOENT => "No such file or directory"
  | SysError.ESRCH => "No such process"
  | SysError.EINTR => "Interrupted system call"
  | SysError.EIO => "I/O error"
  | SysError.ENXIO => "No such device or address"
  | SysError.E2BIG => "Argument list too long"
  | SysError.ENOEXEC => "Exec format error"
  | SysError.EBADF => "Bad file number"
  | SysError.ECHILD => "No child processes"
  | SysError.EAGAIN => "Try again"
  | SysError.ENOMEM => "Out of memory"
  | SysError.EACCES => "Permission denied"
  | SysError.EFAULT => "Bad address"
  | SysError.ENOTBLK => "Block device required"
  | SysError.EBUSY => "Device or resource busy"
  | SysError.EEXIST => "File exists"
  | SysError.EXDEV => "Cross-device link"
  | SysError.ENODEV => "No such device"
  | SysError.ENOTDIR => "Not a directory"
  | SysError.EISDIR => "Is a directory"
  | SysError.EINVAL => "Invalid argument"
  | SysError.ENFILE => "File table overflow"
  | SysError.EMFILE => "Too many open files"
  | SysError.ENOTTY => "Not a typewriter"
  | SysError.ETXTBSY => "Text file busy"
  | SysError.EFBIG => "File too large"
  | SysError.ENOSPC => "No space left on device"
  | SysError.ESPIPE => "Illegal seek"
  | SysError.EROFS => "Read-only file system"
  | SysError.EMLINK => "Too many links"
  | SysError.EPIPE => "Broken pipe"
  | SysError.EDOM => "Math argument out of domain of func"
  | SysError.ERANGE => "Math result not representable"
  | SysError.EDEADLK => "Resource deadlock would occur"
  | SysError.ENAMETOOLONG => "File name too long"
  | SysError.ENOLCK => "No record locks available"
  | SysError.ENOSYS => "Function not implemented"
  | SysError.ENOTEMPTY => "Directory not empty"
  | SysError.EUNDEF => "Unknown error"

/-- One invocation of the `Display` impl against a formatter whose buffer
already holds `buf`: `write!(f, "{}", phrase)` appends the produced phrase
to the formatter's buffer. -/
def SysError.fmtWrite (e : SysError) (buf : String) : String :=
  buf ++ SysError.displayString e

/-- `Result<isize, SysError>`: the return type of every syscall handler. -/
abbrev SysResult := Except SysError Int

/-- The collapse of a handler `Result` to the single signed-integer return,
source lines 137-140: `Ok(code)` passes `code` through, `Err(err)` returns
`-(err as isize)`. -/
def collapse : SysResult → Int
  | Except.ok code => code
  | Except.error err => -(err.code)

/-- The trap frame `&mut TrapFrame`: saved execution context owned by the
trap subsystem.  Opaque to the dispatcher, which only threads it through to
`sys_fork`, `sys_exec`, `sys_arch_prctl` and `crate::trap::error`. -/
structure TrapFrame where
  deriving DecidableEq, Repr

/-- The raw argument vector `args: [usize; 6]`. -/
structure Args where
  a0 : Nat
  a1 : Nat
  a2 : Nat
  a3 : Nat
  a4 : Nat
  a5 : Nat
  deriving DecidableEq, Repr

/-- The six words of the vector, in positional order. -/
def Args.toList (a : Args) : List Nat := [a.a0, a.a1, a.a2, a.a3, a.a4, a.a5]

/-- One message handed to the logging facility during dispatch.
`warn` records a `warn!` notice (its fixed message string); `unknownId`
records the `error!` notice of the default arm, which formats the original
call identifier together with the full six-word argument vector. -/
inductive LogEvent
  | warn (msg : String)
  | unknownId (id : Nat) (args : List Nat)
  deriving DecidableEq, Repr

/-- Which of the three kinds of match arm an invocation of `syscall` ran:
an arm invoking a typed handler, a stub arm ("for musl: empty impl",
including the `sys_exit_group` alias), or the default unknown-identifier
arm. -/
inductive Path
  | handlerCall
  | stub
  | unknown
  deriving DecidableEq, Repr

/-- What a match arm of `syscall` produces before the final collapse:
either a `SysResult` value (`ret` in the source, fed to lines 137-140),
or a divergence.  `sys_exit` never returns (it terminates the process), so
arms 060 and 231 never reach the collapse; likewise `crate::trap::error(tf)`
in the default arm never returns. -/
inductive ArmResult
  | result (r : SysResult)
  | exited (code : Int)
  | faulted (tf : TrapFrame)

/-- What an invocation of `syscall` does, as observed by its caller:
`ret v` is a normal return of the `isize` value `v`; `exited code` means
control diverged into `sys_exit(code)` and never returns to the caller;
`faulted tf` means control diverged into `crate::trap::error(tf)` and never
returns to the caller. -/
inductive SyscallOutcome
  | ret (v : Int)
  | exited (code : Int)
  | faulted (tf : TrapFrame)
  deriving DecidableEq, Repr

/-- The external operation handlers (modules `fs`, `mem`, `proc`, `time`,
`ctrl`), abstracted as an opaque record: each field has exactly the
parameter types the dispatcher passes after reinterpreting the raw words
(addresses stay raw words; `as i64` / `as i32` / `as u8` casts are applied
by the dispatcher).  `sys_exit` is absent because it diverges: its effect is
the `exited` outcome produced directly by arms 060 and 231.
`currentTid` is the value of the external call `thread::current().id()`
used by arm 218 (the caller-identity value of the spec). -/
structure Handlers where
  sys_read : Nat → Nat → Nat → SysResult
  sys_write : Nat → Nat → Nat → SysResult
  sys_open : Nat → Nat → Nat → SysResult
  sys_close : Nat → SysResult
  sys_stat : Nat → Nat → SysResult
  sys_fstat : Nat → Nat → SysResult
  sys_lseek : Nat → Int → Nat → SysResult
  sys_mmap : Nat → Nat → Nat → Nat → Int → Nat → SysResult
  sys_munmap : Nat → Nat → SysResult
  sys_readv : Nat → Nat → Nat → SysResult
  sys_writev : Nat → Nat → Nat → SysResult
  sys_yield : SysResult
  sys_dup2 : Nat → Nat → SysResult
  sys_sleep : Nat → SysResult
  sys_getpid : SysResult
  sys_fork : TrapFrame → SysResult
  sys_exec : Nat → Nat → Nat → TrapFrame → SysResult
  sys_wait : Nat → Nat → SysResult
  sys_kill : Nat → SysResult
  sys_getdirentry : Nat → Nat → SysResult
  sys_get_time : SysResult
  sys_set_priority : Nat → SysResult
  sys_arch_prctl : Int → Nat → TrapFrame → SysResult
  currentTid : Nat

/-- The `match id { ... }` of `syscall` (source lines 30-136): what each arm
produces, which of the three kinds of arm it is, and the log notices it
emits, in the source's arm order.  Arms 000-141 and 158 call a typed
handler after reinterpreting the relevant words; arm 060 diverges into
`sys_exit(args[0] as isize)`; the "for musl" arms warn and yield `Ok(0)`
(arm 218 yields `Ok(thread::current().id() as isize)` instead, and arm 231
warns and then diverges into `sys_exit(args[0] as isize)`); the default arm
logs the identifier and argument vector and diverges into
`crate::trap::error(tf)`. -/
def syscallArm (h : Handlers) (id : Nat) (a : Args) (tf : TrapFrame) :
    ArmResult × Path × List LogEvent :=
  if id = 0 then (ArmResult.result (h.sys_read a.a0 a.a1 a.a2), Path.handlerCall, [])
  else if id = 1 then (ArmResult.result (h.sys_write a.a0 a.a1 a.a2), Path.handlerCall, [])
  else if id = 2 then (ArmResult.result (h.sys_open a.a0 a.a1 a.a2), Path.handlerCall, [])
  else if id = 3 then (ArmResult.result (h.sys_close a.a0), Path.handlerCall, [])
  else if id = 4 then (ArmResult.result (h.sys_stat a.a0 a.a1), Path.handlerCall, [])
  else if id = 5 then (ArmResult.result (h.sys_fstat a.a0 a.a1), Path.handlerCall, [])
  else if id = 8 then
    (ArmResult.result (h.sys_lseek a.a0 (toI64 a.a1) (a.a2 % 256)), Path.handlerCall, [])
  else if id = 9 then
    (ArmResult.result (h.sys_mmap a.a0 a.a1 a.a2 a.a3 (toI32 a.a4) a.a5), Path.handlerCall, [])
  else if id = 11 then (ArmResult.result (h.sys_munmap a.a0 a.a1), Path.handlerCall, [])
  else if id = 19 then (ArmResult.result (h.sys_readv a.a0 a.a1 a.a2), Path.handlerCall, [])
  else if id = 20 then (ArmResult.result (h.sys_writev a.a0 a.a1 a.a2), Path.handlerCall, [])
  else if id = 24 then (ArmResult.result h.sys_yield, Path.handlerCall, [])
  else if id = 33 then (ArmResult.result (h.sys_dup2 a.a0 a.a1), Path.handlerCall, [])
  else if id = 35 then (ArmResult.result (h.sys_sleep a.a0), Path.handlerCall, [])
  else if id = 39 then (ArmResult.result h.sys_getpid, Path.handlerCall, [])
  else if id = 57 then (ArmResult.result (h.sys_fork tf), Path.handlerCall, [])
  else if id = 59 then
    (ArmResult.result (h.sys_exec a.a0 a.a1 a.a2 tf), Path.handlerCall, [])
  else if id = 60 then (ArmResult.exited (toIsize a.a0), Path.handlerCall, [])
  else if id = 61 then (ArmResult.result (h.sys_wait a.a0 a.a1), Path.handlerCall, [])
  else if id = 62 then (ArmResult.result (h.sys_kill a.a0), Path.handlerCall, [])
  else if id = 78 then
    (ArmResult.result (h.sys_getdirentry a.a0 a.a1), Path.handlerCall, [])
  else if id = 96 then (ArmResult.result h.sys_get_time, Path.handlerCall, [])
  else if id = 141 then
    (ArmResult.result (h.sys_set_priority a.a0), Path.handlerCall, [])
  else if id = 12 then
    (ArmResult.result (Except.ok 0), Path.stub, [LogEvent.warn "sys_brk is unimplemented"])
  else if id = 13 then
    (ArmResult.result (Except.ok 0), Path.stub,
      [LogEvent.warn "sys_sigaction is unimplemented"])
  else if id = 14 then
    (ArmResult.result (Except.ok 0), Path.stub,
      [LogEvent.warn "sys_sigprocmask is unimplemented"])
  else if id = 16 then
    (ArmResult.result (Except.ok 0), Path.stub, [LogEvent.warn "sys_ioctl is unimplemented"])
  else if id = 102 then
    (ArmResult.result (Except.ok 0), Path.stub, [LogEvent.warn "sys_getuid is unimplemented"])
  else if id = 107 then
    (ArmResult.result (Except.ok 0), Path.stub,
      [LogEvent.warn "sys_geteuid is unimplemented"])
  else if id = 108 then
    (ArmResult.result (Except.ok 0), Path.stub,
      [LogEvent.warn "sys_getegid is unimplemented"])
  else if id = 131 then
    (ArmResult.result (Except.ok 0), Path.stub,
      [LogEvent.warn "sys_sigaltstack is unimplemented"])
  else if id = 158 then
    (ArmResult.result (h.sys_arch_prctl (toI32 a.a0) a.a1 tf), Path.handlerCall, [])
  else if id = 218 then
    (ArmResult.result (Except.ok (toIsize h.currentTid)), Path.stub,
      [LogEvent.warn "sys_set_tid_address is unimplemented"])
  else if id = 231 then
    (ArmResult.exited (toIsize a.a0), Path.stub,
      [LogEvent.warn "sys_exit_group is unimplemented"])
  else (ArmResult.faulted tf, Path.unknown, [LogEvent.unknownId id a.toList])

/-- The trace of one invocation of the dispatcher: which arm kind ran, the
outcome observed by the caller, and the log notices emitted. -/
structure DispatchTrace where
  path : Path
  outcome : SyscallOutcome
  log : List LogEvent
  deriving DecidableEq, Repr

/-- The dispatcher `pub fn syscall(id, args, tf) -> isize` (source lines
29-141): run the match, then collapse a `SysResult` arm value through lines
137-140; arms that diverged never reach the collapse. -/
def syscall (h : Handlers) (id : Nat) (a : Args) (tf : TrapFrame) : DispatchTrace :=
  match syscallArm h id a tf with
  | (ArmResult.result r, p, log) => ⟨p, SyscallOutcome.ret (collapse r), log⟩
  | (ArmResult.exited c, p, log) => ⟨p, SyscallOutcome.exited c, log⟩
  | (ArmResult.faulted tf2, p, log) => ⟨p, SyscallOutcome.faulted tf2, log⟩

/-- The call identifiers with an arm in the dispatch table, in the source's
arm order (handler arms, then the "for musl" stub arms, then 158, 218, 231).
The default arm of the match fires exactly for identifiers not in this
list. -/
def tableIds : List Nat :=
  [0, 1, 2, 3, 4, 5, 8, 9, 11, 19, 20, 24, 33, 35, 39, 57, 59, 60, 61, 62, 78, 96, 141,
   12, 13, 14, 16, 102, 107, 108, 131, 158, 218, 231]

/-- A concrete instantiation of the abstract handler record, used only to
evaluate the dispatcher on closed inputs in witness theorems. -/
def defaultHandlers : Handlers where
  sys_read := fun _ _ _ => Except.ok 0
  sys_write := fun _ _ _ => Except.ok 0
  sys_open := fun _ _ _ => Except.ok 0
  sys_close := fun _ => Except.ok 0
  sys_stat := fun _ _ => Except.ok 0
  sys_fstat := fun _ _ => Except.ok 0
  sys_lseek := fun _ _ _ => Except.ok 0
  sys_mmap := fun _ _ _ _ _ _ => Except.ok 0
  sys_munmap := fun _ _ => Except.ok 0
  sys_readv := fun _ _ _ => Except.ok 0
  sys_writev := fun _ _ _ => Except.ok 0
  sys_yield := Except.ok 0
  sys_dup2 := fun _ _ => Except.ok 0
  sys_sleep := fun _ => Except.ok 0
  sys_getpid := Except.ok 0
  sys_fork := fun _ => Except.ok 0
  sys_exec := fun _ _ _ _ => Except.ok 0
  sys_wait := fun _ _ => Except.ok 0
  sys_kill := fun _ => Except.ok 0
  sys_getdirentry := fun _ _ => Except.ok 0
  sys_get_time := Except.ok 0
  sys_set_priority := fun _ => Except.ok 0
  sys_arch_prctl := fun _ _ _ => Except.ok 0
  currentTid := 1

/-- The dispatcher's trace exposes the match arm's path tag and log
unchanged, whatever the arm produced. -/
theorem syscall_path_arm (h : Handlers) (id : Nat) (a : Args) (tf : TrapFrame) :
    (syscall h id a tf).path = (syscallArm h id a tf).2.1 ∧
    (syscall h id a tf).log = (syscallArm h id a tf).2.2 := by
  unfold syscall
  rcases syscallArm h id a tf with ⟨r, p, log⟩
  cases r <;> exact ⟨rfl, rfl⟩

/-- Every identifier with an arm in the table runs a handler arm or a stub
arm. -/
theorem arm_path_of_mem (h : Handlers) (a : Args) (tf : TrapFrame) (id : Nat)
    (hm : id ∈ tableIds) :
    (syscallArm h id a tf).2.1 = Path.handlerCall ∨
      (syscallArm h id a tf).2.1 = Path.stub := by
  fin_cases hm <;> first | exact Or.inl rfl | exact Or.inr rfl

/-- Every identifier without an arm in the table falls through to the
default arm. -/
theorem arm_of_not_mem (h : Handlers) (a : Args) (tf : TrapFrame) (id : Nat)
    (hm : id ∉ tableIds) :
    syscallArm h id a tf =
      (ArmResult.faulted tf, Path.unknown, [LogEvent.unknownId id a.toList]) := by
  simp only [tableIds, List.mem_cons, List.not_mem_nil, or_false, not_or] at hm
  simp [syscallArm, hm]

/-- A nonzero word below the word bound does not reinterpret to zero. -/
theorem toIsize_ne_zero (n : Nat) (h0 : n ≠ 0) (hlt : n < 2 ^ 64) :
    toIsize n ≠ 0 := by
  unfold toIsize toI64
  rw [Nat.mod_eq_of_lt hlt]
  split <;> omega

/-- C1 counterexample: the claim fails at the constructible error kind
`EUNDEF`, whose `repr(isize)` code is 0.  Its collapsed return `-(0)` is
not strictly negative and collides with the success payload 0, so the
collapse is not a bijection on the claimed domain. -/
theorem collapse_bijection_cex :
    collapse (Except.error SysError.EUNDEF) = collapse (Except.ok 0) ∧
    ¬ collapse (Except.error SysError.EUNDEF) < 0 := by decide

/-- C1 (amended): excluding `EUNDEF`, the collapse is injective on its
domain: every success payload maps to itself; every error kind other than
`EUNDEF` maps to a strictly negative integer, so it collides with no
non-negative success payload; and distinct error kinds map to distinct
negated codes. -/
theorem collapse_injective_on_domain :
    (∀ c : Int, collapse (Except.ok c) = c) ∧
    (∀ e : SysError, e ≠ SysError.EUNDEF → collapse (Except.error e) < 0) ∧
    (∀ (c : Int) (e : SysError), 0 ≤ c → e ≠ SysError.EUNDEF →
      collapse (Except.ok c) ≠ collapse (Except.error e)) ∧
    (∀ e e' : SysError,
      collapse (Except.error e) = collapse (Except.error e') → e = e') := by
  have hneg : ∀ e : SysError, e ≠ SysError.EUNDEF → collapse (Except.error e) < 0 := by
    decide
  have hinj : ∀ e e' : SysError,
      collapse (Except.error e) = collapse (Except.error e') → e = e' := by decide
  refine ⟨fun c => rfl, hneg, ?_, hinj⟩
  intro c e hc he h
  have hlt := hneg e he
  rw [show collapse (Except.ok c) = c from rfl] at h
  omega

/-- C1 witness: the success payload 5 collides with no encoded error; at
the kind with code 1 the two collapsed values differ. -/
theorem collapse_injective_on_domain_witness :
    collapse (Except.ok 5) ≠ collapse (Except.error SysError.EPERM) :=
  collapse_injective_on_domain.2.2.1 5 SysError.EPERM (by decide) (by decide)

/-- C2: evaluating the code at the failing input.  Because the source's
`Display` match arms are binding patterns (no `use SysError::*` in scope),
formatting `EINVAL` yields "Operation not permitted", not the
"Invalid argument" phrase its own string table assigns to it, and distinct
kinds do not get distinct phrases. -/
theorem display_constant_at_einval :
    SysError.displayString SysError.EINVAL = "Operation not permitted" ∧
    SysError.intendedPhrase SysError.EINVAL = "Invalid argument" ∧
    SysError.displayString SysError.EINVAL ≠ SysError.intendedPhrase SysError.EINVAL ∧
    SysError.displayString SysError.ENOSYS = SysError.displayString SysError.EINVAL :=
  ⟨rfl, rfl, by decide, rfl⟩

/-- C3 counterexample: the claim fails at the constructible kind `EUNDEF`,
whose code is 0, not a strictly positive integer in 1..39. -/
theorem error_code_positive_cex :
    SysError.code SysError.EUNDEF = 0 ∧ ¬ 1 ≤ SysError.code SysError.EUNDEF := by
  decide

/-- C3 (amended): every error kind other than `EUNDEF` carries a strictly
positive code in the range 1..39. -/
theorem error_code_range (e : SysError) (he : e ≠ SysError.EUNDEF) :
    1 ≤ SysError.code e ∧ SysError.code e ≤ 39 := by
  revert he
  revert e
  decide

/-- C3 witness: the kind with the smallest positive code lies in range. -/
theorem error_code_range_witness :
    1 ≤ SysError.code SysError.EPERM ∧ SysError.code SysError.EPERM ≤ 39 :=
  error_code_range SysError.EPERM (by decide)

/-- C4: per invocation exactly one of the three arm kinds fires (they are
mutually exclusive and jointly exhaustive over the identifier space), and
every identifier with a table arm routes to a handler arm or a stub arm and
never to the unknown-identifier arm, for arbitrary arguments and handlers. -/
theorem dispatch_paths_partition (h : Handlers) (a : Args) (tf : TrapFrame) (id : Nat) :
    (((syscall h id a tf).path = Path.handlerCall ∧
        (syscall h id a tf).path ≠ Path.stub ∧
        (syscall h id a tf).path ≠ Path.unknown) ∨
      ((syscall h id a tf).path ≠ Path.handlerCall ∧
        (syscall h id a tf).path = Path.stub ∧
        (syscall h id a tf).path ≠ Path.unknown) ∨
      ((syscall h id a tf).path ≠ Path.handlerCall ∧
        (syscall h id a tf).path ≠ Path.stub ∧
        (syscall h id a tf).path = Path.unknown)) ∧
    (id ∈ tableIds →
      ((syscall h id a tf).path = Path.handlerCall ∨
        (syscall h id a tf).path = Path.stub) ∧
      (syscall h id a tf).path ≠ Path.unknown) := by
  constructor
  · cases hp : (syscall h id a tf).path <;> simp [hp]
  · intro hm
    rw [(syscall_path_arm h id a tf).1]
    rcases arm_path_of_mem h a tf id hm with hp | hp <;> simp [hp]

/-- C4 witness: identifier 0 (read) is in the table and routes to a
handler or stub arm, not the unknown arm. -/
theorem dispatch_paths_partition_witness :
    ((syscall defaultHandlers 0 (Args.mk 1 2 3 4 5 6) TrapFrame.mk).path = Path.handlerCall ∨
      (syscall defaultHandlers 0 (Args.mk 1 2 3 4 5 6) TrapFrame.mk).path = Path.stub) ∧
    (syscall defaultHandlers 0 (Args.mk 1 2 3 4 5 6) TrapFrame.mk).path ≠ Path.unknown :=
  (dispatch_paths_partition defaultHandlers (Args.mk 1 2 3 4 5 6) TrapFrame.mk 0).2
    (by decide)

/-- C5: for every identifier absent from the table and arbitrary arguments,
dispatch logs one notice carrying the original identifier and the full
six-word argument vector, delegates to the architecture fault handler with
the trap frame, and never returns normally the way a successful call
does. -/
theorem unknown_id_faults (h : Handlers) (a : Args) (tf : TrapFrame) (id : Nat)
    (hid : id ∉ tableIds) :
    (syscall h id a tf).log = [LogEvent.unknownId id a.toList] ∧
    (syscall h id a tf).outcome = SyscallOutcome.faulted tf ∧
    ∀ v : Int, (syscall h id a tf).outcome ≠ SyscallOutcome.ret v := by
  have harm := arm_of_not_mem h a tf id hid
  unfold syscall
  rw [harm]
  exact ⟨rfl, rfl, fun _v h' => SyscallOutcome.noConfusion h'⟩

/-- C5 witness: identifier 7 (the commented-out poll slot) has no table
arm; dispatch on it reaches the fault path. -/
theorem unknown_id_faults_witness :
    (syscall defaultHandlers 7 (Args.mk 1 2 3 4 5 6) TrapFrame.mk).outcome =
      SyscallOutcome.faulted TrapFrame.mk :=
  (unknown_id_faults defaultHandlers (Args.mk 1 2 3 4 5 6) TrapFrame.mk 7 (by decide)).2.1

/-- C6: the `sys_exit_group` arm (identifier 231) delegates to the real
process-termination operation: for every argument vector its outcome is
identical to the single-process exit arm (identifier 60), namely
termination with `args[0] as isize`, and it never returns a fabricated
success value; it is still tagged as a stub arm (it also warns). -/
theorem exit_group_aliases_exit (h : Handlers) (a : Args) (tf : TrapFrame) :
    (syscall h 231 a tf).outcome = (syscall h 60 a tf).outcome ∧
    (syscall h 231 a tf).outcome = SyscallOutcome.exited (toIsize a.a0) ∧
    (∀ v : Int, (syscall h 231 a tf).outcome ≠ SyscallOutcome.ret v) ∧
    (syscall h 231 a tf).path = Path.stub :=
  ⟨rfl, rfl, fun _v h' => SyscallOutcome.noConfusion h', rfl⟩

/-- C7: the collapse step applies no transformation beyond the convention:
a success payload passes through unchanged and an error becomes exactly the
negation of its taxonomy code; correspondingly, whatever `Result` the (read)
handler produces, the dispatcher returns it collapsed and nothing else. -/
theorem collapse_passthrough (h : Handlers) (a : Args) (tf : TrapFrame) :
    (∀ c : Int, collapse (Except.ok c) = c) ∧
    (∀ e : SysError, collapse (Except.error e) = -(SysError.code e)) ∧
    (∀ c : Int, h.sys_read a.a0 a.a1 a.a2 = Except.ok c →
      (syscall h 0 a tf).outcome = SyscallOutcome.ret c) ∧
    (∀ e : SysError, h.sys_read a.a0 a.a1 a.a2 = Except.error e →
      (syscall h 0 a tf).outcome = SyscallOutcome.ret (-(SysError.code e))) := by
  refine ⟨fun c => rfl, fun e => rfl, ?_, ?_⟩
  · intro c hc
    simp [syscall, syscallArm, hc, collapse]
  · intro e he
    simp [syscall, syscallArm, he, collapse]

/-- C7 witness: with a handler returning `Ok(0)`, the dispatcher returns
exactly 0. -/
theorem collapse_passthrough_witness :
    (syscall defaultHandlers 0 (Args.mk 1 2 3 4 5 6) TrapFrame.mk).outcome =
      SyscallOutcome.ret 0 :=
  (collapse_passthrough defaultHandlers (Args.mk 1 2 3 4 5 6) TrapFrame.mk).2.2.1 0 rfl

/-- C8: the `sys_getuid` stub (identifier 102) returns success with payload
0 for every argument vector and emits exactly one warning-severity
notice. -/
theorem getuid_stub_returns_zero (h : Handlers) (a : Args) (tf : TrapFrame) :
    (syscall h 102 a tf).outcome = SyscallOutcome.ret 0 ∧
    (syscall h 102 a tf).log = [LogEvent.warn "sys_getuid is unimplemented"] ∧
    (syscall h 102 a tf).path = Path.stub :=
  ⟨rfl, rfl, rfl⟩

/-- C9: formatting is pure and idempotent: one invocation appends the
kind's phrase to the formatter buffer, and a second invocation of the same
kind appends the identical phrase again; the result depends on the prior
buffer only by prefixing. -/
theorem display_idempotent (e : SysError) (buf : String) :
    SysError.fmtWrite e buf = buf ++ SysError.displayString e ∧
    SysError.fmtWrite e ( SysError.fmtWrite e buf) =
      buf ++ ( SysError.displayString e ++ SysError.displayString e) := by
  refine ⟨rfl, ?_⟩
  simp [SysError.fmtWrite, String.append_assoc]

/-- C10: the `sys_set_tid_address` stub (identifier 218) returns success
whose payload is the current thread's identifier (reinterpreted as
`isize`), not the constant 0, for every argument vector, and emits exactly
one warning notice; whenever the thread id is a nonzero machine word the
payload is nonzero. -/
theorem set_tid_address_returns_tid (h : Handlers) (a : Args) (tf : TrapFrame) :
    (syscall h 218 a tf).outcome = SyscallOutcome.ret (toIsize h.currentTid) ∧
    (syscall h 218 a tf).log = [LogEvent.warn "sys_set_tid_address is unimplemented"] ∧
    (syscall h 218 a tf).path = Path.stub ∧
    (h.currentTid ≠ 0 → h.currentTid < 2 ^ 64 →
      (syscall h 218 a tf).outcome ≠ SyscallOutcome.ret 0) := by
  refine ⟨rfl, rfl, rfl, ?_⟩
  intro h0 hlt heq
  have hz : toIsize h.currentTid = 0 := by
    have : SyscallOutcome.ret (toIsize h.currentTid) = SyscallOutcome.ret 0 := heq
    exact SyscallOutcome.ret.inj this
  exact toIsize_ne_zero h.currentTid h0 hlt hz

/-- C10 witness: with current thread id 1, the stub's payload is not 0. -/
theorem set_tid_address_returns_tid_witness :
    (syscall defaultHandlers 218 (Args.mk 1 2 3 4 5 6) TrapFrame.mk).outcome ≠
      SyscallOutcome.ret 0 :=
  (set_tid_address_returns_tid defaultHandlers (Args.mk 1 2 3 4 5 6) TrapFrame.mk).2.2.2
    (by decide) (by decide)

end RCore
